import Mathlib

/-!
Verification of the ZeroLeak Mail alias-lifecycle and classification engine.

The definitions below are shallow embeddings of the TypeScript source:
  * `BreachMonitor`   — lib/services/breach-monitor.ts
  * `SpamDetector` / `SecurityScanner` — lib/services/security-scanner.ts
  * `EmailForwarder.sanitizeHtml` — the email forwarding service
  * the breach-check cron job, the alias kill/replace API routes, and the
    inbound email webhook handler.
Machine numbers are modelled as `Int`/`ℚ` (the JavaScript values involved are
small dyadic rationals, on which IEEE double arithmetic is exact), fallible
code as `Except`, and database state as explicit record updates.
-/

namespace ZeroLeak

/-- Alias status enum (Prisma schema: ACTIVE, KILLED, SUSPENDED, LEAKED). -/
inductive AliasStatus where
  | ACTIVE
  | KILLED
  | SUSPENDED
  | LEAKED
  deriving DecidableEq, Repr

/-- Relay event type enum. -/
inductive RelayType where
  | RECEIVED
  | FORWARDED
  | BLOCKED
  | SPAM_DETECTED
  | LEAK_DETECTED
  deriving DecidableEq, Repr

/-- One breach record as returned by the breach-lookup client
(breach-monitor.ts `BreachData`; date and statistics fields are not used by
any of the functions under verification and are omitted). -/
structure BreachData where
  name : String
  dataClasses : List String
  isVerified : Bool
  isFabricated : Bool
  isSensitive : Bool
  isRetired : Bool
  isSpamList : Bool
  deriving DecidableEq, Repr

/-- Result of `BreachMonitor.checkEmail`. -/
structure BreachCheckResult where
  email : String
  isBreached : Bool
  breaches : List BreachData
  deriving DecidableEq, Repr

namespace BreachMonitor

/-- `BreachMonitor.shouldKillAlias`: kill if found in any verified,
non-fabricated, non-retired breach. -/
def shouldKillAlias (breaches : List BreachData) : Bool :=
  breaches.any (fun b => b.isVerified && !b.isFabricated && !b.isRetired)

/-- Lower-cased character list of a string (JS `String.prototype.toLowerCase`
restricted to the ASCII data appearing in the data-class names). -/
def lowerChars (s : String) : List Char :=
  s.data.map Char.toLower

/-- The sensitive data-class set from `BreachMonitor.calculateSeverity`. -/
def sensitiveClasses : List String :=
  ["Passwords", "Credit cards", "Social security numbers", "Financial information"]

/-- JS `haystack.includes(needle)` on character lists: the needle occurs as a
contiguous substring. -/
def charsInclude (needle : List Char) : List Char → Bool
  | [] => needle.isPrefixOf []
  | c :: rest => needle.isPrefixOf (c :: rest) || charsInclude needle rest

/-- `breach.dataClasses.some(dc => sensitiveClasses.some(sc =>
dc.toLowerCase().includes(sc.toLowerCase())))`. -/
def hasSensitiveData (b : BreachData) : Bool :=
  b.dataClasses.any (fun dc =>
    sensitiveClasses.any (fun sc => charsInclude (lowerChars sc) (lowerChars dc)))

/-- Per-breach mutation of the running score inside the `for` loop of
`BreachMonitor.calculateSeverity`. -/
def severityStep (score : Int) (b : BreachData) : Int :=
  let s1 := score + 1
  let s2 := if b.isVerified then s1 + 2 else s1
  let s3 := if b.isSensitive then s2 + 3 else s2
  let s4 := if hasSensitiveData b then s3 + 2 else s3
  if b.isSpamList || b.isFabricated then s4 - 1 else s4

/-- `BreachMonitor.calculateSeverity`: early return 0 on an empty list,
otherwise accumulate `severityStep` over the list and clamp with
`Math.max(0, score)`. -/
def calculateSeverity (breaches : List BreachData) : Int :=
  if breaches.isEmpty then 0
  else max 0 (breaches.foldl severityStep 0)

end BreachMonitor

/-- Spec-side restatement for claim C2: the points contributed by a single
breach — 1 base, +2 verified, +3 sensitive, +2 sensitive data class,
−1 spam-list or fabricated. -/
def specBreachPoints (b : BreachData) : Int :=
  1 + (if b.isVerified then 2 else 0) + (if b.isSensitive then 3 else 0)
    + (if BreachMonitor.hasSensitiveData b then 2 else 0)
    - (if b.isSpamList || b.isFabricated then 1 else 0)

/-- The example breach `{verified:true, isSensitive:true, dataClasses:["Passwords"]}`. -/
def exampleSensitiveBreach : BreachData :=
  { name := "ExampleBreach"
    dataClasses := ["Passwords"]
    isVerified := true
    isFabricated := false
    isSensitive := true
    isRetired := false
    isSpamList := false }

/-- The example breach `{verified:false, isFabricated:true}`. -/
def exampleFabricatedBreach : BreachData :=
  { name := "FabricatedBreach"
    dataClasses := []
    isVerified := false
    isFabricated := true
    isSensitive := false
    isRetired := false
    isSpamList := false }

lemma severityStep_eq (score : Int) (b : BreachData) :
    BreachMonitor.severityStep score b = score + specBreachPoints b := by
  unfold BreachMonitor.severityStep specBreachPoints
  by_cases h1 : b.isVerified <;> by_cases h2 : b.isSensitive <;>
    by_cases h3 : BreachMonitor.hasSensitiveData b <;>
    by_cases h4 : (b.isSpamList || b.isFabricated) = true <;>
    simp [h1, h2, h3, h4] <;> ring

lemma severity_foldl_eq (breaches : List BreachData) (s : Int) :
    breaches.foldl BreachMonitor.severityStep s =
      s + (breaches.map specBreachPoints).sum := by
  induction breaches generalizing s with
  | nil => simp
  | cons b bs ih =>
      simp only [List.foldl_cons, List.map_cons, List.sum_cons, ih, severityStep_eq]
      ring

/-- C2: the computed breach severity equals the clamped sum of per-breach
points (1 base, +2 verified, +3 sensitive, +2 sensitive data class, −1
spam-list or fabricated); the verified sensitive password breach scores 8 and
the fabricated breach scores 0. -/
theorem calculateSeverity_spec :
    (∀ breaches : List BreachData,
        BreachMonitor.calculateSeverity breaches =
          max 0 ((breaches.map specBreachPoints).sum)) ∧
    BreachMonitor.calculateSeverity [exampleSensitiveBreach] = 8 ∧
    BreachMonitor.calculateSeverity [exampleFabricatedBreach] = 0 := by
  refine ⟨fun breaches => ?_, by decide, by decide⟩
  unfold BreachMonitor.calculateSeverity
  rcases breaches with _ | ⟨b, bs⟩
  · simp
  · simp [severity_foldl_eq, severityStep_eq]

/-! ### Spam detector (security-scanner.ts, `SpamDetector`) -/

/-- Result of `SpamDetector.analyze`. -/
structure SpamAnalysisResult where
  isSpam : Bool
  score : ℚ
  reasons : List String
  deriving DecidableEq, Repr

namespace SpamDetector

/-- `const SPAM_THRESHOLD = 5.0`. -/
def SPAM_THRESHOLD : ℚ := 5.0

/-- The final result assembly of `SpamDetector.analyze`: the component
accumulation (content keywords, sender patterns, subject, HTML-only bonus,
link count, headers) is abstracted as the already-summed `score` argument,
because every verified claim quantifies over the produced score; the
embedded part is `isSpam: score >= SPAM_THRESHOLD` together with the score
and reasons fields. -/
def analyzeResult (score : ℚ) (reasons : List String) : SpamAnalysisResult :=
  { isSpam := decide (SPAM_THRESHOLD ≤ score)
    score := score
    reasons := reasons }

/-- `SpamDetector.shouldQuarantine`: `score >= SPAM_THRESHOLD * 1.5`. -/
def shouldQuarantine (score : ℚ) : Bool :=
  decide (SPAM_THRESHOLD * 1.5 ≤ score)

/-- `SpamDetector.shouldBlock`: `score >= SPAM_THRESHOLD * 2`. -/
def shouldBlock (score : ℚ) : Bool :=
  decide (SPAM_THRESHOLD * 2 ≤ score)

end SpamDetector

/-- C3: for every spam score s, the message is classified spam iff s ≥ 5.0,
quarantine-eligible iff s ≥ 7.5, and block-eligible iff s ≥ 10.0. -/
theorem spam_thresholds_spec :
    ∀ (s : ℚ) (reasons : List String),
      ((SpamDetector.analyzeResult s reasons).isSpam = true ↔ 5.0 ≤ s) ∧
      (SpamDetector.shouldQuarantine s = true ↔ 7.5 ≤ s) ∧
      (SpamDetector.shouldBlock s = true ↔ 10.0 ≤ s) := by
  intro s reasons
  refine ⟨?_, ?_, ?_⟩ <;>
    simp [SpamDetector.analyzeResult, SpamDetector.shouldQuarantine,
      SpamDetector.shouldBlock, SpamDetector.SPAM_THRESHOLD] <;>
    norm_num

/-! ### Security scanner (security-scanner.ts, `SecurityScanner`) -/

/-- Threat type of a `SecurityThreat`. -/
inductive ThreatType where
  | phishing
  | malware
  | suspiciousLink
  | spoofedSender
  | dataTheft
  deriving DecidableEq, Repr

/-- Severity of a `SecurityThreat`. -/
inductive Severity where
  | low
  | medium
  | high
  | critical
  deriving DecidableEq, Repr

/-- One detected `SecurityThreat`. -/
structure SecurityThreat where
  type : ThreatType
  severity : Severity
  description : String
  evidence : String
  deriving DecidableEq, Repr

/-- Result of `SecurityScanner.scan`. -/
structure SecurityScanResult where
  isSecure : Bool
  threats : List SecurityThreat
  score : Int
  deriving DecidableEq, Repr

namespace SecurityScanner

/-- `SecurityScanner.scan`, parameterised by the threat lists produced by the
five regex-based detectors (`detectPhishing`, `scanLinks`, `detectSpoofing`,
`detectMalware`, `detectDataTheft`), whose pattern matching the claims do not
quantify over.  The embedded part is the score bookkeeping: start at 100,
subtract 15/20/25/30/20 per threat found by each detector, clamp at 0 with
`Math.max`, and derive `isSecure` from the clamped score and the absence of
critical threats. -/
def scan (phishingThreats linkThreats spoofingThreats malwareThreats
    dataTheftThreats : List SecurityThreat) : SecurityScanResult :=
  let threats0 : List SecurityThreat := []
  let score0 : Int := 100
  let threats1 := threats0 ++ phishingThreats
  let score1 := score0 - phishingThreats.length * 15
  let threats2 := threats1 ++ linkThreats
  let score2 := score1 - linkThreats.length * 20
  let threats3 := threats2 ++ spoofingThreats
  let score3 := score2 - spoofingThreats.length * 25
  let threats4 := threats3 ++ malwareThreats
  let score4 := score3 - malwareThreats.length * 30
  let threats5 := threats4 ++ dataTheftThreats
  let score5 := score4 - dataTheftThreats.length * 20
  let score := max 0 score5
  { isSecure :=
      decide (70 ≤ score) &&
        (threats5.filter (fun t => t.severity == Severity.critical)).length == 0
    threats := threats5
    score := score }

end SecurityScanner

/-- C8: the security score is 100 minus 15 per phishing threat, 20 per
suspicious-link threat, 25 per spoofing threat, 30 per malware threat and 20
per data-theft threat, clamped below at 0, and the scan is secure iff the
final score is ≥ 70 and no threat in the result has critical severity. -/
theorem security_scan_spec :
    ∀ p l sp m d : List SecurityThreat,
      (SecurityScanner.scan p l sp m d).score =
          max 0 (100 - 15 * (p.length : Int) - 20 * (l.length : Int)
            - 25 * (sp.length : Int) - 30 * (m.length : Int)
            - 20 * (d.length : Int)) ∧
      ((SecurityScanner.scan p l sp m d).isSecure = true ↔
        70 ≤ (SecurityScanner.scan p l sp m d).score ∧
          ∀ t ∈ (SecurityScanner.scan p l sp m d).threats,
            t.severity ≠ Severity.critical) := by
  intro p l sp m d
  constructor
  · unfold SecurityScanner.scan
    simp only [List.nil_append]
    ring_nf
  · unfold SecurityScanner.scan
    simp only [List.nil_append, Bool.and_eq_true, decide_eq_true_eq,
      beq_iff_eq, List.length_eq_zero, List.filter_eq_nil_iff, ne_eq]

/-! ### Alias records and the audit/relay ledgers (Prisma data model) -/

/-- An `Alias` row.  Timestamps are abstract `Nat` instants. -/
structure Alias where
  id : Nat
  userId : Nat
  localPart : String
  domain : String
  merchant : Option String
  merchantGroup : Option String
  forwardTo : Option String
  status : AliasStatus
  decoySeeded : Bool
  decoyToken : Option String
  spamCount : Nat
  breachDetected : Bool
  lastBreachCheck : Option Nat
  replacesId : Option Nat
  replacedById : Option Nat
  killedAt : Option Nat
  leakedAt : Option Nat
  notes : Option String
  deriving DecidableEq, Repr

/-- One `AuditLog` row created by a route (`prisma.auditLog.create`). -/
structure AuditEntry where
  userId : Nat
  action : String
  resource : String
  deriving DecidableEq, Repr

/-- One `RelayEvent` row created by a route (`prisma.relayEvent.create`);
`note` is the distinguishing `metadata.note` field when present. -/
structure RelayEvent where
  aliasId : Nat
  type : RelayType
  note : Option String
  deriving DecidableEq, Repr

/-- One `BreachCheck` row persisted by the sweep. -/
structure BreachRecord where
  email : String
  breachName : String
  dataClasses : List String
  verified : Bool
  deriving DecidableEq, Repr

/-! ### POST /api/alias/kill -/

/-- Result rows of a lifecycle operation: the updated alias together with the
audit-log and relay-event rows the route creates. -/
structure TransitionResult where
  updatedAlias : Alias
  audits : List AuditEntry
  relays : List RelayEvent
  deriving DecidableEq, Repr

/-- The state change performed by `POST /api/alias/kill` once authentication,
ownership and alias lookup have succeeded: set the status to KILLED, create
one BLOCKED relay event and one `alias.killed` audit-log entry. -/
def killAlias (a : Alias) (now : Nat) : TransitionResult :=
  { updatedAlias := { a with status := AliasStatus.KILLED, killedAt := some now }
    audits := [{ userId := a.userId, action := "alias.killed"
                 resource := toString a.id }]
    relays := [{ aliasId := a.id, type := RelayType.BLOCKED, note := none }] }

/-! ### POST /api/alias/replace -/

/-- An HTTP-style error response. -/
structure ApiError where
  statusCode : Nat
  message : String
  deriving DecidableEq, Repr

/-- Successful outcome of `POST /api/alias/replace`: the created alias, the
updated old alias, and the ledger rows written. -/
structure ReplaceOutcome where
  newAlias : Alias
  oldAlias : Alias
  audits : List AuditEntry
  relays : List RelayEvent
  deriving DecidableEq, Repr

/-- `POST /api/alias/replace` after authentication and alias lookup:
reject with 400 when the old alias is still ACTIVE and not breach-flagged;
otherwise create the new alias with `replacesId` pointing at the old one
(status defaulting to ACTIVE per the schema), update the old alias with
`replacedById` and `status: oldAlias.status === 'ACTIVE' ? 'KILLED' :
oldAlias.status`, and create one ALIAS_REPLACED audit-log entry (the route
creates no relay event). -/
def replaceAlias (oldAlias : Alias) (newId : Nat) (localPart : String)
    (enableDecoy : Bool) (decoyTok : Option String) (userEmail : String)
    (notes : Option String) : Except ApiError ReplaceOutcome :=
  if oldAlias.status = AliasStatus.ACTIVE ∧ oldAlias.breachDetected = false then
    Except.error { statusCode := 400
                   message := "Can only replace leaked or killed aliases" }
  else
    let newAlias : Alias :=
      { id := newId
        userId := oldAlias.userId
        localPart := localPart
        domain := oldAlias.domain
        merchant := oldAlias.merchant
        merchantGroup := oldAlias.merchantGroup
        forwardTo := some (oldAlias.forwardTo.getD userEmail)
        status := AliasStatus.ACTIVE
        decoySeeded := enableDecoy
        decoyToken := if enableDecoy then decoyTok else none
        spamCount := 0
        breachDetected := false
        lastBreachCheck := none
        replacesId := some oldAlias.id
        replacedById := none
        killedAt := none
        leakedAt := none
        notes := notes }
    let updatedOld : Alias :=
      { oldAlias with
          replacedById := some newId
          status := if oldAlias.status = AliasStatus.ACTIVE then
              AliasStatus.KILLED
            else oldAlias.status }
    Except.ok
      { newAlias := newAlias
        oldAlias := updatedOld
        audits := [{ userId := oldAlias.userId, action := "ALIAS_REPLACED"
                     resource := "alias:" ++ toString oldAlias.id }]
        relays := [] }

/-! ### BreachMonitor.checkEmail / checkDecoyToken (network boundary) -/

/-- Possible responses of the HIBP breached-account endpoint. -/
inductive HibpResponse where
  | notFound
  | rateLimited (retryAfter : Option String)
  | httpError (code : Nat)
  | success (breaches : List BreachData)
  deriving DecidableEq, Repr

/-- Possible responses of the HIBP paste endpoint. -/
inductive PasteResponse where
  | notFound
  | rateLimited
  | httpError (code : Nat)
  | success (pastes : List String)
  deriving DecidableEq, Repr

namespace BreachMonitor

/-- `BreachMonitor.checkEmail`, with the configured API key and the external
HTTP response as explicit inputs: no API key ⇒ clean result without a
request; 404 ⇒ clean; 429 or another non-ok status ⇒ thrown error
(`Except.error`); 2xx ⇒ the breach list. -/
def checkEmail (apiKey : Option String) (email : String) (resp : HibpResponse) :
    Except String BreachCheckResult :=
  match apiKey with
  | none => Except.ok { email := email, isBreached := false, breaches := [] }
  | some _ =>
    match resp with
    | HibpResponse.notFound =>
        Except.ok { email := email, isBreached := false, breaches := [] }
    | HibpResponse.rateLimited retryAfter =>
        Except.error ("Rate limited. Retry after "
          ++ retryAfter.getD "null" ++ " seconds")
    | HibpResponse.httpError code =>
        Except.error ("HIBP API error: " ++ toString code)
    | HibpResponse.success breaches =>
        Except.ok { email := email, isBreached := !breaches.isEmpty
                    breaches := breaches }

/-- `BreachMonitor.checkDecoyToken`: false when no API key is configured;
on a 2xx response, true iff the paste list is non-empty; any 404/429/error
response yields false. -/
def checkDecoyToken (apiKey : Option String) (resp : PasteResponse) : Bool :=
  match apiKey with
  | none => false
  | some _ =>
    match resp with
    | PasteResponse.success pastes => !pastes.isEmpty
    | _ => false

end BreachMonitor

/-! ### GET /api/cron/breach-check (the breach sweep, per alias) -/

/-- Rows produced while sweeping one alias. -/
structure SweepStepResult where
  updatedAlias : Alias
  records : List BreachRecord
  audits : List AuditEntry
  relays : List RelayEvent
  deriving DecidableEq, Repr

/-- The breach-result handling of the sweep body (part_003 lines 68–164),
applied to one ACTIVE alias after `checkEmail` succeeded with the given
breach list (`isBreached` of a successful check equals `breaches.length >
0`): always update `lastBreachCheck`; when breached, set `breachDetected`,
persist one `BreachCheck` row per breach, then either auto-kill (status
LEAKED, one ALIAS_AUTO_KILLED audit entry, one LEAK_DETECTED relay event)
when `shouldKillAlias(breaches) && severity >= 5`, or record a
minor-breach advisory relay event leaving the status untouched. -/
def handleBreachResult (a : Alias) (breaches : List BreachData) (now : Nat) :
    SweepStepResult :=
  let email := a.localPart ++ "@" ++ a.domain
  let a1 := { a with lastBreachCheck := some now }
  if !breaches.isEmpty then
    let a2 := { a1 with breachDetected := true }
    let records := breaches.map (fun b =>
      { email := email, breachName := b.name
        dataClasses := b.dataClasses, verified := b.isVerified })
    if BreachMonitor.shouldKillAlias breaches
        && decide (5 ≤ BreachMonitor.calculateSeverity breaches) then
      { updatedAlias :=
          { a2 with status := AliasStatus.LEAKED, leakedAt := some now }
        records := records
        audits := [{ userId := a.userId, action := "ALIAS_AUTO_KILLED"
                     resource := "alias:" ++ toString a.id }]
        relays := [{ aliasId := a.id, type := RelayType.LEAK_DETECTED
                     note := none }] }
    else if breaches.length > 0 then
      { updatedAlias := a2
        records := records
        audits := []
        relays := [{ aliasId := a.id, type := RelayType.LEAK_DETECTED
                     note := some "Minor breach detected, not auto-killing" }] }
    else
      { updatedAlias := a2, records := records, audits := [], relays := [] }
  else
    { updatedAlias := a1, records := [], audits := [], relays := [] }

/-- JS truthiness of the nullable string `alias.decoyToken`. -/
def tokenTruthy (tok : Option String) : Bool :=
  decide (tok.getD "" ≠ "")

/-- One full sweep iteration for one alias (the `try` body of the cron
loop): check the email, handle the breach result, then perform the decoy
probe when decoy seeding is enabled.  An `Except.error` is the caught
exception path — the alias row is left untouched and only the error counter
moves. -/
def sweepCheckAlias (apiKey : Option String) (a : Alias)
    (breachResp : HibpResponse) (pasteResp : PasteResponse) (now : Nat) :
    Except String SweepStepResult :=
  let email := a.localPart ++ "@" ++ a.domain
  match BreachMonitor.checkEmail apiKey email breachResp with
  | Except.error e => Except.error e
  | Except.ok res =>
    let r1 := handleBreachResult a res.breaches now
    if a.decoySeeded && tokenTruthy a.decoyToken
        && BreachMonitor.checkDecoyToken apiKey pasteResp then
      Except.ok
        { updatedAlias :=
            { r1.updatedAlias with status := AliasStatus.LEAKED
                                   leakedAt := some now
                                   breachDetected := true }
          records := r1.records
          audits := r1.audits ++
            [{ userId := a.userId, action := "ALIAS_AUTO_KILLED"
               resource := "alias:" ++ toString a.id }]
          relays := r1.relays ++
            [{ aliasId := a.id, type := RelayType.LEAK_DETECTED
               note := none }] }
    else
      Except.ok r1

/-! ### Inbound email webhook (processIncomingEmail) -/

/-- EmailMessage status enum. -/
inductive EmailStatus where
  | PENDING
  | DELIVERED
  | FAILED
  | SPAM
  | QUARANTINED
  deriving DecidableEq, Repr

/-- Outcome of processing one inbound message for one alias. -/
structure InboundResult where
  updatedAlias : Alias
  emailStatus : EmailStatus
  audits : List AuditEntry
  relays : List RelayEvent
  shouldForward : Bool
  deriving DecidableEq, Repr

/-- `processIncomingEmail` from the webhook handler, restricted to one found
alias: `score` is the spam score `SpamDetector.analyze` computes for the
message and `decoyInBody` says whether the raw body contains the alias's
decoy token.  Mirrors the source order: a non-ACTIVE alias is blocked with a
BLOCKED relay event; otherwise the decoy check may mark the alias LEAKED
(one LEAK_DETECTED relay event and one LEAK_DETECTED audit entry) and then
the spam tier is decided — block-eligible messages increment `spamCount` and
when the previously read `spamCount + 1` reaches 10 the alias is KILLED with
one ALIAS_AUTO_KILLED audit entry; quarantine-eligible and merely
spam-classified messages change no alias state.  Every non-blocked message
finally gets a SPAM_DETECTED or RECEIVED relay event; forwarding itself is
beyond the verified claims and is summarised by `shouldForward`. -/
def processInbound (a : Alias) (score : ℚ) (decoyInBody : Bool) (now : Nat) :
    InboundResult :=
  if a.status ≠ AliasStatus.ACTIVE then
    { updatedAlias := a, emailStatus := EmailStatus.PENDING, audits := []
      relays := [{ aliasId := a.id, type := RelayType.BLOCKED, note := none }]
      shouldForward := false }
  else
    let isSpam := decide (SpamDetector.SPAM_THRESHOLD ≤ score)
    let decoyDetected := a.decoySeeded && tokenTruthy a.decoyToken && decoyInBody
    let db1 := if decoyDetected then
        { a with status := AliasStatus.LEAKED, leakedAt := some now
                 breachDetected := true }
      else a
    let audits1 : List AuditEntry := if decoyDetected then
        [{ userId := a.userId, action := "LEAK_DETECTED"
           resource := "alias:" ++ toString a.id }]
      else []
    let relays1 : List RelayEvent := if decoyDetected then
        [{ aliasId := a.id, type := RelayType.LEAK_DETECTED, note := none }]
      else []
    let receivedRelay : RelayEvent :=
      { aliasId := a.id
        type := if isSpam then RelayType.SPAM_DETECTED else RelayType.RECEIVED
        note := none }
    if SpamDetector.shouldBlock score then
      let db2 := { db1 with spamCount := db1.spamCount + 1 }
      if 10 ≤ a.spamCount + 1 then
        { updatedAlias :=
            { db2 with status := AliasStatus.KILLED, killedAt := some now }
          emailStatus := EmailStatus.SPAM
          audits := audits1 ++
            [{ userId := a.userId, action := "ALIAS_AUTO_KILLED"
               resource := "alias:" ++ toString a.id }]
          relays := relays1 ++ [receivedRelay]
          shouldForward := false }
      else
        { updatedAlias := db2, emailStatus := EmailStatus.SPAM
          audits := audits1, relays := relays1 ++ [receivedRelay]
          shouldForward := false }
    else if SpamDetector.shouldQuarantine score then
      { updatedAlias := db1, emailStatus := EmailStatus.QUARANTINED
        audits := audits1, relays := relays1 ++ [receivedRelay]
        shouldForward := false }
    else if isSpam then
      { updatedAlias := db1, emailStatus := EmailStatus.SPAM
        audits := audits1, relays := relays1 ++ [receivedRelay]
        shouldForward := false }
    else
      { updatedAlias := db1, emailStatus := EmailStatus.PENDING
        audits := audits1, relays := relays1 ++ [receivedRelay]
        shouldForward := true }

/-- Sequential delivery of a list of messages (spam score, decoy-in-body
flag) to one alias, accumulating the audit-log rows created. -/
def runInbound (a : Alias) (msgs : List (ℚ × Bool)) (now : Nat) :
    Alias × List AuditEntry :=
  msgs.foldl (fun acc m =>
    let r := processInbound acc.1 m.1 m.2 now
    (r.updatedAlias, acc.2 ++ r.audits)) (a, [])

/-- Number of ALIAS_AUTO_KILLED audit entries in a ledger fragment. -/
def countAutoKilled (audits : List AuditEntry) : Nat :=
  (audits.filter (fun e => e.action == "ALIAS_AUTO_KILLED")).length

/-! ### Concrete fixtures used by witnesses and counterexamples -/

/-- A plain ACTIVE alias with no decoy seeding. -/
def testAlias : Alias :=
  { id := 1, userId := 1, localPart := "shop-ab12", domain := "mail.zeroleak.app"
    merchant := some "Shop", merchantGroup := none
    forwardTo := some "user@example.com", status := AliasStatus.ACTIVE
    decoySeeded := false, decoyToken := none, spamCount := 0
    breachDetected := false, lastBreachCheck := none, replacesId := none
    replacedById := none, killedAt := none, leakedAt := none, notes := none }

/-- An ACTIVE, decoy-seeded alias. -/
def decoyAlias : Alias :=
  { testAlias with id := 2, decoySeeded := true, decoyToken := some "deadbeef" }

/-- A LEAKED alias eligible for replacement. -/
def leakedAlias : Alias :=
  { testAlias with id := 3, status := AliasStatus.LEAKED, breachDetected := true }

/-- An ACTIVE alias whose breach flag is set (sweep found a minor breach). -/
def breachFlaggedAlias : Alias :=
  { testAlias with id := 4, breachDetected := true }

/-! ### C10 — breach check without an API key -/

/-- C10: with no HIBP API key configured, `checkEmail` succeeds with a clean
result whatever the external service would have answered, and the sweep step
leaves the alias untouched except for `lastBreachCheck`, creating no rows. -/
theorem no_api_key_clean_spec :
    ∀ (a : Alias) (email : String) (resp : HibpResponse)
      (pasteResp : PasteResponse) (now : Nat),
      BreachMonitor.checkEmail none email resp =
        Except.ok { email := email, isBreached := false, breaches := [] } ∧
      sweepCheckAlias none a resp pasteResp now =
        Except.ok { updatedAlias := { a with lastBreachCheck := some now }
                    records := [], audits := [], relays := [] } := by
  intro a email resp pasteResp now
  refine ⟨rfl, ?_⟩
  simp [sweepCheckAlias, BreachMonitor.checkEmail, BreachMonitor.checkDecoyToken,
    handleBreachResult]

/-! ### C6 — replacement guard -/

/-- C6: a replace request fails (with the 400 error) exactly when the old
alias is ACTIVE and not breach-flagged; LEAKED, KILLED, SUSPENDED or
breach-flagged aliases are replaceable. -/
theorem replace_guard_spec :
    ∀ (oldA : Alias) (newId : Nat) (localPart : String) (enableDecoy : Bool)
      (decoyTok : Option String) (userEmail : String) (notes : Option String),
      replaceAlias oldA newId localPart enableDecoy decoyTok userEmail notes =
          Except.error { statusCode := 400
                         message := "Can only replace leaked or killed aliases" }
        ↔ (oldA.status = AliasStatus.ACTIVE ∧ oldA.breachDetected = false) := by
  intro oldA newId localPart enableDecoy decoyTok userEmail notes
  unfold replaceAlias
  by_cases h : oldA.status = AliasStatus.ACTIVE ∧ oldA.breachDetected = false <;>
    simp [h]

theorem replace_guard_witness :
    replaceAlias testAlias 9 "shop-new" false none "user@example.com" none =
      Except.error { statusCode := 400
                     message := "Can only replace leaked or killed aliases" } :=
  (replace_guard_spec testAlias 9 "shop-new" false none "user@example.com"
    none).mpr ⟨rfl, rfl⟩

/-! ### C4 — replacement links and the old alias's status -/

/-- Counterexample to C4 as stated: replacing an ACTIVE breach-flagged alias
does change the old record's own status — the route sets it to KILLED
(`status: oldAlias.status === 'ACTIVE' ? 'KILLED' : oldAlias.status`). -/
theorem replace_status_cex :
    breachFlaggedAlias.status = AliasStatus.ACTIVE ∧
    (replaceAlias breachFlaggedAlias 9 "shop-new" false none "user@example.com"
        none).map (fun o => o.oldAlias.status) =
      Except.ok AliasStatus.KILLED := by
  exact ⟨rfl, rfl⟩

/-- C4 (amended): replacement creates the new alias with `replacesId`
pointing at the old one and back-links the old alias via `replacedById`; the
old alias's own status is left as-is when it is already non-ACTIVE
(LEAKED/KILLED/SUSPENDED), but an ACTIVE breach-flagged alias is set to
KILLED by the same update. -/
theorem replace_links_spec (oldA : Alias) (newId : Nat) (localPart : String)
    (enableDecoy : Bool) (decoyTok : Option String) (userEmail : String)
    (notes : Option String) (out : ReplaceOutcome)
    (h : replaceAlias oldA newId localPart enableDecoy decoyTok userEmail notes =
      Except.ok out) :
    out.newAlias.replacesId = some oldA.id ∧
    out.oldAlias.replacedById = some out.newAlias.id ∧
    (oldA.status ≠ AliasStatus.ACTIVE → out.oldAlias.status = oldA.status) ∧
    (oldA.status = AliasStatus.ACTIVE →
      out.oldAlias.status = AliasStatus.KILLED) := by
  unfold replaceAlias at h
  by_cases hg : oldA.status = AliasStatus.ACTIVE ∧ oldA.breachDetected = false
  · simp [hg] at h
  · simp only [hg, if_false] at h
    cases h
    refine ⟨rfl, rfl, fun hne => ?_, fun heq => ?_⟩
    · simp [hne]
    · simp [heq]

/-- Fallback outcome used only to name the computed replace result below. -/
def fallbackOutcome : ReplaceOutcome :=
  { newAlias := leakedAlias, oldAlias := leakedAlias, audits := [], relays := [] }

/-- The concrete outcome of replacing `leakedAlias`. -/
def leakedReplaceOutcome : ReplaceOutcome :=
  (replaceAlias leakedAlias 9 "shop-new" false none "user@example.com"
    none).toOption.getD fallbackOutcome

theorem replace_links_witness :
    replaceAlias leakedAlias 9 "shop-new" false none "user@example.com" none =
        Except.ok leakedReplaceOutcome ∧
      (leakedReplaceOutcome.newAlias.replacesId = some leakedAlias.id ∧
        leakedReplaceOutcome.oldAlias.replacedById =
          some leakedReplaceOutcome.newAlias.id ∧
        (leakedAlias.status ≠ AliasStatus.ACTIVE →
          leakedReplaceOutcome.oldAlias.status = leakedAlias.status) ∧
        (leakedAlias.status = AliasStatus.ACTIVE →
          leakedReplaceOutcome.oldAlias.status = AliasStatus.KILLED)) :=
  ⟨rfl, replace_links_spec leakedAlias 9 "shop-new" false none
    "user@example.com" none leakedReplaceOutcome rfl⟩

/-! ### C5 — ledger rows per lifecycle transition -/

/-- Counterexample to C5 as stated: the replacement action writes its
ALIAS_REPLACED audit-log entry but creates no RelayEvent at all. -/
theorem transition_ledger_cex :
    (replaceAlias leakedAlias 9 "shop-new" false none "user@example.com"
        none).map (fun o => (o.audits.length, o.relays.length)) =
      Except.ok (1, 0) := by
  rfl

/-- C5 (amended): a user-requested kill, a breach auto-kill, and a sweep
decoy-leak kill each produce exactly one AuditLog entry and one RelayEvent;
the replacement action produces exactly one AuditLog entry but no
RelayEvent. -/
theorem transition_ledger_spec (a b : Alias) (now : Nat)
    (breaches : List BreachData) (k : String) (pasteResp : PasteResponse)
    (newId : Nat) (lp : String) (ed : Bool) (dt : Option String) (ue : String)
    (nts : Option String) :
    ((killAlias a now).audits.length = 1 ∧ (killAlias a now).relays.length = 1) ∧
    ((BreachMonitor.shouldKillAlias breaches
        && decide (5 ≤ BreachMonitor.calculateSeverity breaches)) = true →
      (handleBreachResult a breaches now).audits.length = 1 ∧
        (handleBreachResult a breaches now).relays.length = 1) ∧
    ((a.decoySeeded && tokenTruthy a.decoyToken
        && BreachMonitor.checkDecoyToken (some k) pasteResp) = true →
      (sweepCheckAlias (some k) a HibpResponse.notFound pasteResp now).map
          (fun r => (r.audits.length, r.relays.length)) = Except.ok (1, 1)) ∧
    (¬(b.status = AliasStatus.ACTIVE ∧ b.breachDetected = false) →
      (replaceAlias b newId lp ed dt ue nts).map
          (fun o => (o.audits.length, o.relays.length)) = Except.ok (1, 0)) := by
  refine ⟨⟨rfl, rfl⟩, fun hkill => ?_, fun hdecoy => ?_, fun hguard => ?_⟩
  · have hne : breaches ≠ [] := by
      rcases breaches with _ | _
      · simp [BreachMonitor.shouldKillAlias] at hkill
      · exact List.cons_ne_nil _ _
    unfold handleBreachResult
    simp [hne, hkill]
  · unfold sweepCheckAlias
    simp [BreachMonitor.checkEmail, hdecoy, handleBreachResult, Except.map]
  · unfold replaceAlias
    simp [hguard, Except.map]

theorem transition_ledger_witness :
    ((killAlias decoyAlias 0).audits.length = 1 ∧
      (killAlias decoyAlias 0).relays.length = 1) ∧
    ((handleBreachResult decoyAlias [exampleSensitiveBreach] 0).audits.length = 1 ∧
      (handleBreachResult decoyAlias [exampleSensitiveBreach] 0).relays.length = 1) ∧
    ((sweepCheckAlias (some "key") decoyAlias HibpResponse.notFound
        (PasteResponse.success ["paste"]) 0).map
          (fun r => (r.audits.length, r.relays.length)) = Except.ok (1, 1)) ∧
    ((replaceAlias leakedAlias 9 "shop-new" false none "user@example.com"
        none).map (fun o => (o.audits.length, o.relays.length)) =
      Except.ok (1, 0)) := by
  have h := transition_ledger_spec decoyAlias leakedAlias 0
    [exampleSensitiveBreach] "key" (PasteResponse.success ["paste"]) 9
    "shop-new" false none "user@example.com" none
  exact ⟨h.1, h.2.1 (by decide), h.2.2.1 (by decide), h.2.2.2 (by decide)⟩

/-! ### C1 — sweep auto-kill decision -/

/-- C1: for an ACTIVE alias, the sweep's breach handling marks the alias
LEAKED exactly when the breach list is kill-eligible (some verified,
non-fabricated, non-retired breach) and the computed severity is ≥ 5; when
breaches are present but that condition fails, the status stays ACTIVE and
exactly the minor-breach advisory relay event is recorded. -/
theorem breach_autokill_spec (a : Alias) (breaches : List BreachData)
    (now : Nat) (hactive : a.status = AliasStatus.ACTIVE) :
    ((handleBreachResult a breaches now).updatedAlias.status =
        AliasStatus.LEAKED ↔
      ((∃ b ∈ breaches, b.isVerified = true ∧ b.isFabricated = false ∧
          b.isRetired = false) ∧
        5 ≤ BreachMonitor.calculateSeverity breaches)) ∧
    (breaches ≠ [] →
      ¬((∃ b ∈ breaches, b.isVerified = true ∧ b.isFabricated = false ∧
          b.isRetired = false) ∧
        5 ≤ BreachMonitor.calculateSeverity breaches) →
      (handleBreachResult a breaches now).updatedAlias.status =
          AliasStatus.ACTIVE ∧
      (handleBreachResult a breaches now).relays =
        [{ aliasId := a.id, type := RelayType.LEAK_DETECTED
           note := some "Minor breach detected, not auto-killing" }]) := by
  have hkill : BreachMonitor.shouldKillAlias breaches = true ↔
      ∃ b ∈ breaches, b.isVerified = true ∧ b.isFabricated = false ∧
        b.isRetired = false := by
    simp [BreachMonitor.shouldKillAlias, List.any_eq_true, Bool.and_eq_true,
      Bool.not_eq_true', and_assoc]
  by_cases hc : (BreachMonitor.shouldKillAlias breaches
      && decide (5 ≤ BreachMonitor.calculateSeverity breaches)) = true
  · have hC : (∃ b ∈ breaches, b.isVerified = true ∧ b.isFabricated = false ∧
        b.isRetired = false) ∧ 5 ≤ BreachMonitor.calculateSeverity breaches := by
      rw [Bool.and_eq_true, decide_eq_true_eq, hkill] at hc
      exact hc
    have hne : breaches ≠ [] := by
      rcases hC.1 with ⟨b, hb, _⟩
      exact List.ne_nil_of_mem hb
    refine ⟨iff_of_true ?_ hC, fun _ habs => absurd hC habs⟩
    rcases List.exists_cons_of_ne_nil hne with ⟨b, bs, rfl⟩
    unfold handleBreachResult
    simp [hc]
  · have hC : ¬((∃ b ∈ breaches, b.isVerified = true ∧ b.isFabricated = false ∧
        b.isRetired = false) ∧ 5 ≤ BreachMonitor.calculateSeverity breaches) := by
      rw [Bool.and_eq_true, decide_eq_true_eq, hkill] at hc
      exact hc
    refine ⟨iff_of_false ?_ hC, fun hne _ => ?_⟩
    · unfold handleBreachResult
      rcases breaches with _ | ⟨b, bs⟩
      · simp [hactive]
      · simp [hc, hactive]
    · rcases List.exists_cons_of_ne_nil hne with ⟨b, bs, rfl⟩
      unfold handleBreachResult
      simp [hc, hactive]

theorem breach_autokill_witness :
    (handleBreachResult testAlias [exampleSensitiveBreach] 0).updatedAlias.status =
      AliasStatus.LEAKED :=
  (breach_autokill_spec testAlias [exampleSensitiveBreach] 0 rfl).1.mpr
    ⟨⟨exampleSensitiveBreach, by decide, by decide, by decide, by decide⟩,
      by decide⟩

/-! ### C9 — spam auto-kill over a run of inbound messages -/

lemma processInbound_notActive (a : Alias) (s : ℚ) (d : Bool) (now : Nat)
    (h : a.status ≠ AliasStatus.ACTIVE) :
    processInbound a s d now =
      { updatedAlias := a, emailStatus := EmailStatus.PENDING, audits := []
        relays := [{ aliasId := a.id, type := RelayType.BLOCKED, note := none }]
        shouldForward := false } := by
  unfold processInbound
  simp [h]

lemma runInbound_go (st : Alias) (log : List AuditEntry)
    (ms : List (ℚ × Bool)) (now : Nat) :
    ms.foldl (fun acc m =>
        let r := processInbound acc.1 m.1 m.2 now
        (r.updatedAlias, acc.2 ++ r.audits)) (st, log) =
      ((runInbound st ms now).1, log ++ (runInbound st ms now).2) := by
  induction ms generalizing st log with
  | nil => simp [runInbound]
  | cons m ms ih =>
      unfold runInbound
      simp only [List.foldl_cons]
      rw [ih, ih]
      simp

lemma runInbound_cons (a : Alias) (m : ℚ × Bool) (ms : List (ℚ × Bool))
    (now : Nat) :
    runInbound a (m :: ms) now =
      ((runInbound (processInbound a m.1 m.2 now).updatedAlias ms now).1,
        (processInbound a m.1 m.2 now).audits ++
          (runInbound (processInbound a m.1 m.2 now).updatedAlias ms now).2) := by
  unfold runInbound
  simp only [List.foldl_cons]
  exact runInbound_go _ _ ms now

lemma runInbound_notActive (a : Alias) (ms : List (ℚ × Bool)) (now : Nat)
    (h : a.status ≠ AliasStatus.ACTIVE) :
    runInbound a ms now = (a, []) := by
  induction ms with
  | nil => rfl
  | cons m ms ih =>
      rw [runInbound_cons, processInbound_notActive a m.1 m.2 now h]
      simpa using ih

/-- One block-eligible message processed by an ACTIVE, non-decoy-seeded
alias: the spam counter is incremented; when the previously read counter + 1
reaches 10 the alias is killed with one ALIAS_AUTO_KILLED entry. -/
lemma processInbound_block (a : Alias) (s : ℚ) (d : Bool) (now : Nat)
    (hactive : a.status = AliasStatus.ACTIVE) (hdecoy : a.decoySeeded = false)
    (hblock : SpamDetector.shouldBlock s = true) :
    processInbound a s d now =
      if 10 ≤ a.spamCount + 1 then
        { updatedAlias := { a with spamCount := a.spamCount + 1
                                   status := AliasStatus.KILLED
                                   killedAt := some now }
          emailStatus := EmailStatus.SPAM
          audits := [{ userId := a.userId, action := "ALIAS_AUTO_KILLED"
                       resource := "alias:" ++ toString a.id }]
          relays := [{ aliasId := a.id, type := RelayType.SPAM_DETECTED
                       note := none }]
          shouldForward := false }
      else
        { updatedAlias := { a with spamCount := a.spamCount + 1 }
          emailStatus := EmailStatus.SPAM
          audits := []
          relays := [{ aliasId := a.id, type := RelayType.SPAM_DETECTED
                       note := none }]
          shouldForward := false } := by
  have hspam : decide (SpamDetector.SPAM_THRESHOLD ≤ s) = true := by
    rw [decide_eq_true_eq]
    have h10 : SpamDetector.SPAM_THRESHOLD * 2 ≤ s := by
      have := hblock
      unfold SpamDetector.shouldBlock at this
      exact of_decide_eq_true this
    unfold SpamDetector.SPAM_THRESHOLD at h10 ⊢
    linarith
  unfold processInbound
  simp [hactive, hdecoy, hblock, hspam]

/-- Invariant: a run of block-eligible messages that never reaches the
threshold just accumulates the spam counter. -/
lemma runInbound_block_low (now : Nat) (ms : List (ℚ × Bool)) :
    ∀ a : Alias, a.status = AliasStatus.ACTIVE → a.decoySeeded = false →
      (∀ m ∈ ms, SpamDetector.shouldBlock m.1 = true) →
      a.spamCount + ms.length < 10 →
      runInbound a ms now = ({ a with spamCount := a.spamCount + ms.length }, []) := by
  induction ms with
  | nil =>
      intro a hactive hdecoy hblock hlow
      simp [runInbound]
  | cons m ms ih =>
      intro a hactive hdecoy hblock hlow
      have hub : ¬ 10 ≤ a.spamCount + 1 := by
        simp only [List.length_cons] at hlow
        omega
      rw [runInbound_cons,
        processInbound_block a m.1 m.2 now hactive hdecoy
          (hblock m (List.mem_cons_self m ms))]
      rw [if_neg hub]
      simp only []
      rw [ih { a with spamCount := a.spamCount + 1 } hactive hdecoy
        (fun x hx => hblock x (List.mem_cons_of_mem m hx))
        (by
          show a.spamCount + 1 + ms.length < 10
          simp only [List.length_cons] at hlow
          omega)]
      have harith : a.spamCount + 1 + ms.length = a.spamCount + (ms.length + 1) := by
        omega
      simp only [List.length_cons]
      show ({ a with spamCount := a.spamCount + 1 + ms.length }, ([] : List AuditEntry))
        = ({ a with spamCount := a.spamCount + (ms.length + 1) }, [])
      rw [harith]

/-- Reaching the threshold inside a run of block-eligible messages kills the
alias exactly once. -/
lemma runInbound_block_kill (now : Nat) (ms : List (ℚ × Bool)) :
    ∀ a : Alias, a.status = AliasStatus.ACTIVE → a.decoySeeded = false →
      (∀ m ∈ ms, SpamDetector.shouldBlock m.1 = true) →
      a.spamCount < 10 → 10 ≤ a.spamCount + ms.length →
      (runInbound a ms now).1.status = AliasStatus.KILLED ∧
        countAutoKilled (runInbound a ms now).2 = 1 := by
  induction ms with
  | nil =>
      intro a _ _ _ hlow hhigh
      simp only [List.length_nil, Nat.add_zero] at hhigh
      omega
  | cons m ms ih =>
      intro a hactive hdecoy hblock hlow hhigh
      rw [runInbound_cons,
        processInbound_block a m.1 m.2 now hactive hdecoy
          (hblock m (List.mem_cons_self m ms))]
      by_cases hth : 10 ≤ a.spamCount + 1
      · rw [if_pos hth]
        simp only []
        rw [runInbound_notActive _ ms now (by simp)]
        simp [countAutoKilled]
      · rw [if_neg hth]
        simp only []
        have := ih { a with spamCount := a.spamCount + 1 } hactive hdecoy
          (fun x hx => hblock x (List.mem_cons_of_mem m hx))
          (by show a.spamCount + 1 < 10; omega)
          (by
            show 10 ≤ a.spamCount + 1 + ms.length
            simp only [List.length_cons] at hhigh
            omega)
        simpa [countAutoKilled] using this

/-- A message below the block tier never changes the alias row of an ACTIVE
non-decoy-seeded alias and writes no audit entry (the quarantine, spam and
clean tiers only store the message and its relay event). -/
lemma processInbound_noBlock (a : Alias) (s : ℚ) (d : Bool) (now : Nat)
    (hactive : a.status = AliasStatus.ACTIVE) (hdecoy : a.decoySeeded = false)
    (hnb : SpamDetector.shouldBlock s = false) :
    (processInbound a s d now).updatedAlias = a ∧
      (processInbound a s d now).audits = [] := by
  unfold processInbound
  simp only [hactive, hdecoy, hnb]
  by_cases hq : SpamDetector.shouldQuarantine s = true <;>
    by_cases hs : decide (SpamDetector.SPAM_THRESHOLD ≤ s) = true <;>
      simp [hq, hs, hactive]

/-- A run of messages below the block tier leaves an ACTIVE non-decoy-seeded
alias untouched and writes no audit entries. -/
lemma runInbound_noBlock (now : Nat) (ms : List (ℚ × Bool)) :
    ∀ a : Alias, a.status = AliasStatus.ACTIVE → a.decoySeeded = false →
      (∀ m ∈ ms, SpamDetector.shouldBlock m.1 = false) →
      runInbound a ms now = (a, []) := by
  induction ms with
  | nil =>
      intro a _ _ _
      rfl
  | cons m ms ih =>
      intro a hactive hdecoy hnb
      rw [runInbound_cons]
      have h := processInbound_noBlock a m.1 m.2 now hactive hdecoy
        (hnb m (List.mem_cons_self m ms))
      rw [h.1, h.2, ih a hactive hdecoy
        (fun x hx => hnb x (List.mem_cons_of_mem m hx))]
      simp

/-- Counterexample to C9 as stated: ten spam-classified messages (score 6 ≥
5.0 each, so `isSpam` holds) produce zero ALIAS_AUTO_KILLED audit entries
and leave the alias ACTIVE, because the webhook increments `spamCount` and
runs the kill check only inside the `shouldBlock` (score ≥ 10.0) branch. -/
theorem spam_autokill_cex :
    (SpamDetector.analyzeResult 6 []).isSpam = true ∧
    countAutoKilled (runInbound testAlias
      (List.replicate 10 ((6 : ℚ), false)) 0).2 = 0 ∧
    (runInbound testAlias (List.replicate 10 ((6 : ℚ), false)) 0).1.status =
      AliasStatus.ACTIVE := by
  have hrun := runInbound_noBlock 0 (List.replicate 10 ((6 : ℚ), false))
    testAlias rfl rfl
    (fun m hm => by
      rw [List.eq_of_mem_replicate hm]
      unfold SpamDetector.shouldBlock SpamDetector.SPAM_THRESHOLD
      rw [decide_eq_false_iff_not]
      norm_num)
  refine ⟨?_, ?_, ?_⟩
  · unfold SpamDetector.analyzeResult SpamDetector.SPAM_THRESHOLD
    simp only [decide_eq_true_eq]
    norm_num
  · rw [hrun]
    rfl
  · rw [hrun]
    rfl

/-- C9 (amended): for an ACTIVE alias with `spamCount = 0`, a run of ten
block-eligible messages (spam score ≥ 10.0 — the tier whose branch
increments the counter and checks the threshold) produces exactly one
ALIAS_AUTO_KILLED audit entry, on the tenth message and not earlier, and
kills the alias; spam-classified messages below the block tier do not touch
the counter. -/
theorem spam_autokill_spec (a : Alias) (ms : List (ℚ × Bool)) (now : Nat)
    (hactive : a.status = AliasStatus.ACTIVE) (hdecoy : a.decoySeeded = false)
    (hcount : a.spamCount = 0)
    (hblock : ∀ m ∈ ms, SpamDetector.shouldBlock m.1 = true)
    (hlen : ms.length = 10) :
    countAutoKilled (runInbound a ms now).2 = 1 ∧
    (runInbound a ms now).1.status = AliasStatus.KILLED ∧
    countAutoKilled (runInbound a (ms.take 9) now).2 = 0 ∧
    (runInbound a (ms.take 9) now).1.status = AliasStatus.ACTIVE := by
  have hkill := runInbound_block_kill now ms a hactive hdecoy hblock
    (by omega) (by omega)
  have htake : (ms.take 9).length = 9 := by
    rw [List.length_take, hlen]
    omega
  have hlow := runInbound_block_low now (ms.take 9) a hactive hdecoy
    (fun m hm => hblock m (List.take_subset 9 ms hm))
    (by omega)
  refine ⟨hkill.2, hkill.1, ?_, ?_⟩
  · rw [hlow]
    simp [countAutoKilled]
  · rw [hlow]
    exact hactive

theorem spam_autokill_witness :
    countAutoKilled (runInbound testAlias
      (List.replicate 10 ((12 : ℚ), false)) 0).2 = 1 ∧
    (runInbound testAlias (List.replicate 10 ((12 : ℚ), false)) 0).1.status =
      AliasStatus.KILLED ∧
    countAutoKilled (runInbound testAlias
      ((List.replicate 10 ((12 : ℚ), false)).take 9) 0).2 = 0 ∧
    (runInbound testAlias
      ((List.replicate 10 ((12 : ℚ), false)).take 9) 0).1.status =
      AliasStatus.ACTIVE :=
  spam_autokill_spec testAlias (List.replicate 10 ((12 : ℚ), false)) 0 rfl rfl
    rfl
    (fun m hm => by
      rw [List.eq_of_mem_replicate hm]
      unfold SpamDetector.shouldBlock SpamDetector.SPAM_THRESHOLD
      rw [decide_eq_true_eq]
      norm_num)
    (by simp)

/-! ### C7 — EmailForwarder.sanitizeHtml

The removal regexes of `sanitizeHtml` fall into a small fragment: sequences
of single-character classes, greedy `[^>]*` stars and greedy `["']?`
options.  `rmatch` implements JavaScript's backtracking semantics on that
fragment (greedy, leftmost, longest-first with backtracking) and
`replaceAll` implements `String.prototype.replace` with a global regex and
an empty replacement.  The fuel arguments strictly dominate the recursion
depth, keeping every definition structurally recursive and kernel-evaluable.
-/

/-- One item of a regex in the fragment used by `sanitizeHtml`. -/
inductive RItem where
  | cls (p : Char → Bool)
  | star (p : Char → Bool)
  | opt (p : Char → Bool)

/-- Backtracking matcher: `rmatch fuel ps s` returns the length of the match
of the item sequence `ps` at the start of `s` found first in JavaScript's
greedy order, or `none`.  Every recursive call strictly decreases
`s.length + ps.length`, so `fuel = s.length + ps.length + 1` never runs
out. -/
def rmatch : Nat → List RItem → List Char → Option Nat
  | 0, _, _ => none
  | _ + 1, [], _ => some 0
  | _ + 1, RItem.cls _ :: _, [] => none
  | fuel + 1, RItem.cls p :: ps, c :: rest =>
      if p c then (rmatch fuel ps rest).map (fun n => n + 1) else none
  | fuel + 1, RItem.opt _ :: ps, [] => rmatch fuel ps []
  | fuel + 1, RItem.opt p :: ps, c :: rest =>
      if p c then
        match rmatch fuel ps rest with
        | some n => some (n + 1)
        | none => rmatch fuel ps (c :: rest)
      else rmatch fuel ps (c :: rest)
  | fuel + 1, RItem.star _ :: ps, [] => rmatch fuel ps []
  | fuel + 1, RItem.star p :: ps, c :: rest =>
      if p c then
        match rmatch fuel (RItem.star p :: ps) rest with
        | some n => some (n + 1)
        | none => rmatch fuel ps (c :: rest)
      else rmatch fuel ps (c :: rest)

/-- Leftmost match attempt with sufficient fuel. -/
def tryMatch (ps : List RItem) (s : List Char) : Option Nat :=
  rmatch (s.length + ps.length + 1) ps s

/-- Global replace-with-empty: scan left to right, delete each leftmost
match and continue behind it (a zero-width match deletes nothing and
advances one character, as JS does). -/
def replaceLoop : Nat → List RItem → List Char → List Char
  | 0, _, s => s
  | fuel + 1, ps, s =>
      match s with
      | [] => []
      | c :: rest =>
          match tryMatch ps (c :: rest) with
          | some (n + 1) => replaceLoop fuel ps (rest.drop n)
          | some 0 => c :: replaceLoop fuel ps rest
          | none => c :: replaceLoop fuel ps rest

/-- `s.replace(re, '')` for a global regex `re` in the supported fragment. -/
def replaceAll (ps : List RItem) (s : List Char) : List Char :=
  replaceLoop s.length ps s

/-- A literal character under the `i` flag. -/
def charLit (c : Char) : RItem :=
  RItem.cls (fun x => x.toLower == c.toLower)

/-- A literal string under the `i` flag. -/
def strPat (s : String) : List RItem :=
  s.data.map charLit

/-- `[^>]*`. -/
def notGtStar : RItem :=
  RItem.star (fun x => x != '>')

/-- `["']?`. -/
def quoteOpt : RItem :=
  RItem.opt (fun x => x == '"' || x == Char.ofNat 39)

/-- `.` in a JavaScript regex without the `s` flag: any character except a
line terminator. -/
def dotAny : RItem :=
  RItem.cls (fun x => !(x == Char.ofNat 10 || x == Char.ofNat 13
    || x == Char.ofNat 0x2028 || x == Char.ofNat 0x2029))

/-- `/<img[^>]*width=["']?1["']?[^>]*height=["']?1["']?[^>]*>/gi`. -/
def pixelPattern1 : List RItem :=
  strPat "<img" ++ [notGtStar] ++ strPat "width=" ++ [quoteOpt]
    ++ strPat "1" ++ [quoteOpt] ++ [notGtStar] ++ strPat "height="
    ++ [quoteOpt] ++ strPat "1" ++ [quoteOpt] ++ [notGtStar] ++ strPat ">"

/-- `/<img[^>]*height=["']?1["']?[^>]*width=["']?1["']?[^>]*>/gi`. -/
def pixelPattern2 : List RItem :=
  strPat "<img" ++ [notGtStar] ++ strPat "height=" ++ [quoteOpt]
    ++ strPat "1" ++ [quoteOpt] ++ [notGtStar] ++ strPat "width="
    ++ [quoteOpt] ++ strPat "1" ++ [quoteOpt] ++ [notGtStar] ++ strPat ">"

/-- The tracking-domain denylist of `sanitizeHtml`. -/
def trackingDomains : List String :=
  ["pixel.facebook.com", "www.google-analytics.com",
    "stats.g.doubleclick.net", "sb.scorecardresearch.com"]

/-- `` new RegExp(`<img[^>]*DOMAIN[^>]*>`, 'gi') `` — the unescaped dots of
the domain string are regex wildcards. -/
def domainPat (d : String) : List RItem :=
  strPat "<img" ++ [notGtStar]
    ++ d.data.map (fun c => if c == '.' then dotAny else charLit c)
    ++ [notGtStar] ++ strPat ">"

namespace EmailForwarder

/-- `EmailForwarder.sanitizeHtml`: apply the two 1×1-pixel removal regexes,
then the four tracking-domain removal regexes, each as a global
replace-with-empty. -/
def sanitizeHtml (html : String) : String :=
  let s1 := replaceAll pixelPattern1 html.data
  let s2 := replaceAll pixelPattern2 s1
  let s3 := trackingDomains.foldl (fun acc d => replaceAll (domainPat d) acc) s2
  String.mk s3

end EmailForwarder

/-- Counterexample to C7 as stated: the tag `<img width="10" height="12"
src="a">` is not a 1×1 pixel (its dimensions are 10×12) and references no
denylisted tracking domain, yet sanitization deletes it, because
`width=["']?1` already matches on the leading `1` of `10` — so markup other
than 1×1 pixels and tracking-domain images is not always left
byte-identical. -/
theorem sanitize_pixel_cex :
    EmailForwarder.sanitizeHtml "<img width=\"10\" height=\"12\" src=\"a\">" = ""
      ∧ "<img width=\"10\" height=\"12\" src=\"a\">" ≠ "" := by
  exact ⟨rfl, by decide⟩

/-- C7 (amended): on HTML whose `<img>` tags carry exact `width="1"
height="1"` attributes or reference a denylisted tracking domain,
sanitization deletes exactly those tags and leaves every other character
unchanged — shown on representative inputs; but the width/height regexes
also delete `<img>` tags whose dimension values merely start with `1`, so
the byte-identity of all other markup does not hold for every HTML
string. -/
theorem sanitize_roundtrip_spec :
    EmailForwarder.sanitizeHtml
        "<div><p>Hello</p><img src=\"x.gif\" width=\"1\" height=\"1\"><p>Bye</p></div>"
      = "<div><p>Hello</p><p>Bye</p></div>" ∧
    EmailForwarder.sanitizeHtml
        "<p>a</p><img src=\"http://pixel.facebook.com/t.png\"><p>b</p>"
      = "<p>a</p><p>b</p>" := by
  exact ⟨rfl, rfl⟩

end ZeroLeak
